import Mathlib

/-!
# Verification of the Lucidis backend conversation/tenancy subsystems

This file shallowly embeds the parts of the Lucidis backend (a multi-tenant
inbox service written in JavaScript on Prisma + Redis) that its specification
makes claims about:

* the conversation lifecycle state machine
  (`src/services/conversationState.service.js`),
* conversation assignment (`src/services/conversationAssignment.service.js`),
* inbound message ingestion (`src/services/inbox.service.js`),
* department authority resolution and membership writes
  (`departmentAuthority` / `departmentUser` services),
* the tenant middleware and role gate (`tenant.middleware.js`).

The persistent database is modelled as lists of records (`Store`), the Redis
cache as a list of keyed entries with absolute expiry timestamps (`Cache`),
and fallible service calls as `Except`-valued functions.  Redis commands that
the source leaves unguarded are given explicit failure switches so that the
spec's claims about cache-failure absorption can be stated.
-/

namespace Lucidis

/-- Decidable equality for `Except`, so that witnesses can be discharged by
`decide`. -/
instance {ε α : Type} [DecidableEq ε] [DecidableEq α] :
    DecidableEq (Except ε α)
  | .error e, .error e' =>
    if h : e = e' then .isTrue (by rw [h])
    else .isFalse (by intro hh; cases hh; exact h rfl)
  | .ok a, .ok a' =>
    if h : a = a' then .isTrue (by rw [h])
    else .isFalse (by intro hh; cases hh; exact h rfl)
  | .error _, .ok _ => .isFalse (by intro h; cases h)
  | .ok _, .error _ => .isFalse (by intro h; cases h)

/-- An account row; `appOwnerId` is the direct owner foreign key used by the
APP_OWNER bypass in the tenant middleware. -/
structure Account where
  id : Nat
  appOwnerId : Nat
  deriving DecidableEq, Repr

/-- A workspace row with its authoritative parent account id. -/
structure Workspace where
  id : Nat
  accountId : Nat
  deriving DecidableEq, Repr

/-- A department row with its authoritative parent workspace id. -/
structure Department where
  id : Nat
  workspaceId : Nat
  deriving DecidableEq, Repr

/-- A user row (only the id matters for the verified operations). -/
structure User where
  id : Nat
  deriving DecidableEq, Repr

/-- An `account_users` membership row. -/
structure AccountUser where
  userId : Nat
  accountId : Nat
  role : String
  deriving DecidableEq, Repr

/-- A `workspace_users` membership row. -/
structure WorkspaceUser where
  userId : Nat
  workspaceId : Nat
  role : String
  deriving DecidableEq, Repr

/-- A `department_users` membership row. -/
structure DepartmentUser where
  userId : Nat
  departmentId : Nat
  role : String
  deriving DecidableEq, Repr

/-- A contact row (sender identity for inbound messages). -/
structure Contact where
  id : Nat
  email : String
  name : Option String
  deriving DecidableEq, Repr

/-- A conversation row.  `status` is kept as a `String` exactly as in the
JavaScript source, where it is compared against the literals
`"TODO" / "ASSIGNED" / "ESCALATED" / "CLOSED"` and unexpected values can
occur. -/
structure Conversation where
  id : Nat
  workspaceId : Nat
  contactId : Nat
  subject : Option String
  status : String
  statusUpdatedAt : Nat
  assignedUserId : Option Nat
  assignedAt : Option Nat
  lastMessageAt : Nat
  deriving DecidableEq, Repr

/-- A message row; `isInternal = false` marks an externally-originated
(inbound) message. -/
structure Message where
  id : Nat
  conversationId : Nat
  fromEmail : String
  body : String
  isInternal : Bool
  deriving DecidableEq, Repr

/-- The persistent store (the Prisma/PostgreSQL database).  `nextId` feeds
ids for newly created rows. -/
structure Store where
  accounts : List Account
  workspaces : List Workspace
  departments : List Department
  users : List User
  accountUsers : List AccountUser
  workspaceUsers : List WorkspaceUser
  departmentUsers : List DepartmentUser
  contacts : List Contact
  conversations : List Conversation
  messages : List Message
  nextId : Nat
  deriving DecidableEq, Repr

/-! ## Redis cache model

Every value this codebase stores in Redis is a string produced either
directly (`'true'`/`'false'`/role names) or by `JSON.stringify`.  We model
the value space as an inductive so that `JSON.parse ∘ JSON.stringify` is the
identity embedding. -/

/-- A Redis value as used by this codebase. -/
inductive RVal where
  /-- a plain string value such as `'true'`, `'false'` or a role name -/
  | s (v : String)
  /-- the JSON encoding of a conversation-state object
  `{status, statusUpdatedAt}` -/
  | stateObj (status : String) (statusUpdatedAt : Nat)
  /-- the JSON encoding of a list of user ids (manager / support listings) -/
  | userList (userIds : List Nat)
  deriving DecidableEq, Repr

/-- One cached entry: key, value and absolute expiry time (`setex` with TTL
`ttl` at time `now` sets `expiresAt = now + ttl`). -/
structure CacheEntry where
  key : String
  val : RVal
  expiresAt : Nat
  deriving DecidableEq, Repr

/-- The Redis keyspace. -/
abbrev Cache := List CacheEntry

/-- `redis.get`: returns the value stored at `k` if it has not expired.
(An entry whose `expiresAt ≤ now` behaves exactly like an absent key.) -/
def cacheGet (c : Cache) (now : Nat) (k : String) : Option RVal :=
  match c.find? (fun e => e.key == k) with
  | some e => if now < e.expiresAt then some e.val else none
  | none => none

/-- `redis.setex k ttl v`: stores `v` at `k` expiring at `now + ttl`,
replacing any previous entry for `k`. -/
def cacheSetex (c : Cache) (now : Nat) (k : String) (ttl : Nat) (v : RVal) :
    Cache :=
  ⟨k, v, now + ttl⟩ :: c.filter (fun e => e.key ≠ k)

/-- `redis.del k`: removes the entry stored at `k`. -/
def cacheDel (c : Cache) (k : String) : Cache :=
  c.filter (fun e => e.key ≠ k)

/-! ## Store lookups (Prisma queries) -/

/-- `prisma.conversation.findFirst({ where: { id, ...(workspaceId && { workspaceId }) } })`:
the workspace filter is only part of the query when a workspace id was
passed (JS truthiness of the optional parameter). -/
def findConversation (st : Store) (cid : Nat) (wid : Option Nat) :
    Option Conversation :=
  st.conversations.find? (fun c =>
    c.id == cid &&
      (match wid with
       | some w => c.workspaceId == w
       | none => true))

/-- `prisma.workspace.findUnique({ where: { id } })`. -/
def findWorkspace (st : Store) (wid : Nat) : Option Workspace :=
  st.workspaces.find? (fun w => w.id == wid)

/-- `prisma.department.findFirst({ where: { id, workspaceId } })`. -/
def findDepartment (st : Store) (did wid : Nat) : Option Department :=
  st.departments.find? (fun d => d.id == did && d.workspaceId == wid)

/-- `prisma.user.findUnique({ where: { id } })`. -/
def findUser (st : Store) (uid : Nat) : Option User :=
  st.users.find? (fun u => u.id == uid)

/-- `prisma.accountUser.findUnique({ where: { userId_accountId } })`. -/
def findAccountUser (st : Store) (uid aid : Nat) : Option AccountUser :=
  st.accountUsers.find? (fun m => m.userId == uid && m.accountId == aid)

/-- `prisma.workspaceUser.findUnique({ where: { userId_workspaceId } })`. -/
def findWorkspaceUser (st : Store) (uid wid : Nat) : Option WorkspaceUser :=
  st.workspaceUsers.find? (fun m => m.userId == uid && m.workspaceId == wid)

/-- `prisma.departmentUser.findUnique({ where: { userId_departmentId } })`. -/
def findDepartmentUser (st : Store) (uid did : Nat) : Option DepartmentUser :=
  st.departmentUsers.find? (fun m => m.userId == uid && m.departmentId == did)

/-- `prisma.contact.findUnique({ where: { email } })`. -/
def findContactByEmail (st : Store) (email : String) : Option Contact :=
  st.contacts.find? (fun c => c.email == email)

/-- `prisma.conversation.findFirst({ where: { workspaceId, contactId } })`. -/
def findConversationByContact (st : Store) (wid ctid : Nat) :
    Option Conversation :=
  st.conversations.find? (fun c => c.workspaceId == wid && c.contactId == ctid)

/-! ## Conversation state service (`conversationState.service.js`) -/

/-- The error values the conversation/assignment/department services throw,
one constructor per distinct `throw new Error(...)` site the claims involve,
plus `redisError` for a rejected, unguarded Redis command. -/
inductive SvcError where
  | conversationNotFound
  | conversationWrongWorkspace
  | conversationWrongAccount
  | invalidState (s : String)
  | illegalTransition (fromState toState : String)
  | relationMissing
  | workspaceNotFound
  | departmentNotFound
  | departmentWrongAccount
  | insufficientPermissions
  | userNotFound
  | userNotInWorkspace
  | invalidRole
  | alreadyInDepartment
  | redisError
  deriving DecidableEq, Repr

/-- `ConversationStateService.VALID_TRANSITIONS`: the legal-target set of
each of the four states; any other (string) state has no entry. -/
def VALID_TRANSITIONS : String → Option (List String)
  | "TODO" => some ["ASSIGNED", "ESCALATED"]
  | "ASSIGNED" => some ["CLOSED"]
  | "ESCALATED" => some ["ASSIGNED"]
  | "CLOSED" => some ["TODO", "ASSIGNED"]
  | _ => none

/-- `_isValidTransition(currentState, newState)`: `false` when the current
state has no entry in `VALID_TRANSITIONS`, otherwise membership of
`newState` in the allowed list. -/
def isValidTransition (currentState newState : String) : Bool :=
  match VALID_TRANSITIONS currentState with
  | none => false
  | some allowed => allowed.contains newState

/-- The four valid states accepted by `setConversationState`. -/
def validStates : List String := ["TODO", "ASSIGNED", "ESCALATED", "CLOSED"]

/-- `_verifyConversationChain(conversationId, workspaceId, accountId)`:
fetch the conversation (filtering by workspace when one is declared),
then compare the declared workspace id against the row and the declared
account id against the workspace row's authoritative `accountId`.
`relationMissing` marks the impossible branch in which the conversation's
workspace row is absent (the foreign key makes the Prisma `include`
always succeed). -/
def verifyConversationChain (st : Store) (cid : Nat) (wid aid : Option Nat) :
    Except SvcError Conversation :=
  match findConversation st cid wid with
  | none => .error .conversationNotFound
  | some c =>
    match wid with
    | some w =>
      if c.workspaceId ≠ w then .error .conversationWrongWorkspace
      else
        match aid with
        | some a =>
          match findWorkspace st c.workspaceId with
          | some ws =>
            if ws.accountId ≠ a then .error .conversationWrongAccount
            else .ok c
          | none => .error .relationMissing
        | none => .ok c
    | none =>
      match aid with
      | some a =>
        match findWorkspace st c.workspaceId with
        | some ws =>
          if ws.accountId ≠ a then .error .conversationWrongAccount
          else .ok c
        | none => .error .relationMissing
      | none => .ok c

/-- The key list deleted by `_invalidateConversationStateCache`. -/
def stateInvalidationKeys (cid : Nat) (wid : Option Nat) : List String :=
  ["conversation_state:" ++ toString cid,
   "conversation:" ++ toString cid] ++
    match wid with
    | some w =>
      ["conversations:workspace:" ++ toString w,
       "conversations:workspace:" ++ toString w ++ ":status:TODO",
       "conversations:workspace:" ++ toString w ++ ":status:ASSIGNED",
       "conversations:workspace:" ++ toString w ++ ":status:ESCALATED",
       "conversations:workspace:" ++ toString w ++ ":status:CLOSED"]
    | none => []

/-- Sequentially `redis.del` each key; `faults i = true` means the `i`-th
delete rejects, which aborts the remaining deletes (the thrown error is
handled by the caller's `catch`). -/
def delKeys (faults : Nat → Bool) : List String → Nat → Cache → Cache
  | [], _, cache => cache
  | k :: ks, i, cache =>
    if faults i then cache
    else delKeys faults ks (i + 1) (cacheDel cache k)

/-- `_invalidateConversationStateCache(conversationId, workspaceId)`: deletes
the enumerated per-conversation and per-workspace keys inside a
`try/catch`, so a failed delete never propagates to the caller. -/
def invalidateConversationStateCache (cache : Cache) (faults : Nat → Bool)
    (cid : Nat) (wid : Option Nat) : Cache :=
  delKeys faults (stateInvalidationKeys cid wid) 0 cache

/-- Replace the conversation row `cid` using `f`
(`prisma.conversation.update({ where: { id } })`; the id is a primary key,
so at most one row matches). -/
def updateConversation (st : Store) (cid : Nat)
    (f : Conversation → Conversation) : Store :=
  { st with conversations :=
      st.conversations.map (fun c => if c.id = cid then f c else c) }

/-- `setConversationState(conversationId, newState, workspaceId, accountId)`:
validate the state string, verify the containment chain, validate the
transition against `VALID_TRANSITIONS`, then persist
`status = newState, statusUpdatedAt = now` and invalidate the cache.
Returns the updated store, cache and conversation row. -/
def setConversationState (st : Store) (cache : Cache) (now : Nat)
    (cid : Nat) (newState : String) (wid aid : Option Nat)
    (faults : Nat → Bool) :
    Except SvcError (Store × Cache × Conversation) :=
  if ¬ validStates.contains newState then .error (.invalidState newState)
  else
    match verifyConversationChain st cid wid aid with
    | .error e => .error e
    | .ok c =>
      if ¬ isValidTransition c.status newState then
        .error (.illegalTransition c.status newState)
      else
        let st' := updateConversation st cid
          (fun x => { x with status := newState, statusUpdatedAt := now })
        let cache' := invalidateConversationStateCache cache faults cid wid
        .ok (st', cache', { c with status := newState, statusUpdatedAt := now })

/-- `getConversationState(conversationId, workspaceId, accountId)`: verify
the chain, then read through the cache
(`conversation_state:{id}`, TTL 300 s).  The `redis.get` and `redis.setex`
calls are NOT wrapped in `try/catch` in the source, so `failGet`/`failSetex`
model their rejection propagating out of the service call. -/
def getConversationState (st : Store) (cache : Cache) (now : Nat)
    (cid : Nat) (wid aid : Option Nat) (failGet failSetex : Bool) :
    Except SvcError ((String × Nat) × Cache) :=
  match verifyConversationChain st cid wid aid with
  | .error e => .error e
  | .ok _ =>
    if failGet then .error .redisError
    else
      match cacheGet cache now ("conversation_state:" ++ toString cid) with
      | some (.stateObj s t) => .ok ((s, t), cache)
      | _ =>
        match findConversation st cid none with
        | none => .error .conversationNotFound
        | some c =>
          if failSetex then .error .redisError
          else
            .ok ((c.status, c.statusUpdatedAt),
              cacheSetex cache now ("conversation_state:" ++ toString cid)
                300 (.stateObj c.status c.statusUpdatedAt))

/-! ## Conversation assignment service (`conversationAssignment.service.js`) -/

/-- `_verifyUserInWorkspace(userId, workspaceId)`. -/
def verifyUserInWorkspace (st : Store) (uid wid : Nat) :
    Except SvcError Unit :=
  match findWorkspaceUser st uid wid with
  | none => .error .userNotInWorkspace
  | some _ => .ok ()

/-- The key list deleted by `_invalidateConversationCache` (guarded by
`try/catch` in the source). -/
def assignmentInvalidationKeys (cid wid : Nat) : List String :=
  ["conversation:" ++ toString cid,
   "conversation_assigned:" ++ toString cid,
   "conversation_assigned_user:" ++ toString cid,
   "conversations:workspace:" ++ toString wid]

/-- `_invalidateConversationCache(conversationId, workspaceId)`. -/
def invalidateConversationCache (cache : Cache) (faults : Nat → Bool)
    (cid wid : Nat) : Cache :=
  delKeys faults (assignmentInvalidationKeys cid wid) 0 cache

/-- `assignConversationToUser(conversationId, userId, workspaceId, accountId)`:
verify the chain and the user's workspace membership, then persist
`assignedUserId = userId, assignedAt = now` (and only those fields). -/
def assignConversationToUser (st : Store) (cache : Cache) (now : Nat)
    (cid uid wid aid : Nat) (faults : Nat → Bool) :
    Except SvcError (Store × Cache × Conversation) :=
  match verifyConversationChain st cid (some wid) (some aid) with
  | .error e => .error e
  | .ok c =>
    match verifyUserInWorkspace st uid wid with
    | .error e => .error e
    | .ok _ =>
      match findUser st uid with
      | none => .error .userNotFound
      | some _ =>
        let st' := updateConversation st cid
          (fun x => { x with assignedUserId := some uid, assignedAt := some now })
        let cache' := invalidateConversationCache cache faults cid wid
        .ok (st', cache',
          { c with assignedUserId := some uid, assignedAt := some now })

/-- `unassignConversation(conversationId, workspaceId, accountId)`: verify the
chain, then persist `assignedUserId = null, assignedAt = null` (and only
those fields). -/
def unassignConversation (st : Store) (cache : Cache)
    (cid wid aid : Nat) (faults : Nat → Bool) :
    Except SvcError (Store × Cache × Conversation) :=
  match verifyConversationChain st cid (some wid) (some aid) with
  | .error e => .error e
  | .ok c =>
    let st' := updateConversation st cid
      (fun x => { x with assignedUserId := none, assignedAt := none })
    let cache' := invalidateConversationCache cache faults cid wid
    .ok (st', cache', { c with assignedUserId := none, assignedAt := none })

/-! ## Department authority service (`departmentAuthority` service) -/

/-- `_verifyDepartmentChain(departmentId, workspaceId, accountId)`: same
structure as the conversation chain check. -/
def verifyDepartmentChain (st : Store) (did : Nat) (wid aid : Option Nat) :
    Except SvcError Department :=
  match st.departments.find? (fun d =>
      d.id == did &&
        (match wid with
         | some w => d.workspaceId == w
         | none => true)) with
  | none => .error .departmentNotFound
  | some d =>
    match aid with
    | some a =>
      match findWorkspace st d.workspaceId with
      | some ws =>
        if ws.accountId ≠ a then .error .departmentWrongAccount
        else .ok d
      | none => .error .relationMissing
    | none => .ok d

/-- `isDepartmentManager(userId, departmentId, workspaceId, accountId)`:
read-through on key `is_dept_manager:{userId}:{departmentId}` with TTL
300 s; on a miss the membership row decides and the boolean is cached as
the string `'true'`/`'false'`. -/
def isDepartmentManager (st : Store) (cache : Cache) (now : Nat)
    (uid did : Nat) (wid aid : Option Nat) :
    Except SvcError (Bool × Cache) :=
  match verifyDepartmentChain st did wid aid with
  | .error e => .error e
  | .ok _ =>
    let key := "is_dept_manager:" ++ toString uid ++ ":" ++ toString did
    match cacheGet cache now key with
    | some v => .ok (v == RVal.s "true", cache)
    | none =>
      let isManager :=
        match findDepartmentUser st uid did with
        | some du => du.role == "DEPARTMENT_MANAGER"
        | none => false
      .ok (isManager,
        cacheSetex cache now key 300 (.s (if isManager then "true" else "false")))

/-- `invalidateDepartmentCache(departmentId)`: deletes only the two
enumerated aggregate keys; the per-subject wildcard patterns are left to
TTL expiry (the source comments that scan-based deletion is not done). -/
def invalidateDepartmentCache (cache : Cache) (faults : Nat → Bool)
    (did : Nat) : Cache :=
  delKeys faults
    ["department_managers:" ++ toString did,
     "department_human_support:" ++ toString did] 0 cache

/-! ## Department user service (`departmentUser` service) -/

/-- The caller identity object threaded into the department-user service by
its controller. -/
structure CallerInfo where
  userId : Nat
  accountRole : Option String
  workspaceRole : Option String
  deriving DecidableEq, Repr

/-- The request payload of `addUserToDepartment`. -/
structure AddUserData where
  userId : Nat
  role : String
  deriving DecidableEq, Repr

/-- The permission check of `DepartmentUserService.addUserToDepartment`
(lines 30–60): account `ADMIN`, else workspace `ADMIN`, else a
`DEPARTMENT_MANAGER` membership row of the caller in this department. -/
def departmentWritePermission (st : Store) (caller : CallerInfo)
    (did : Nat) : Bool :=
  if caller.accountRole == some "ADMIN" then true
  else if caller.workspaceRole == some "ADMIN" then true
  else
    match findDepartmentUser st caller.userId did with
    | some du => du.role == "DEPARTMENT_MANAGER"
    | none => false

/-- `addUserToDepartment(departmentId, workspaceId, accountId, data, callerInfo)`:
verify the Department → Workspace → Account chain, check the caller's
permission, then validate the target user and insert the membership row,
deleting the `department:{id}` and `department_users:department:{id}`
cache keys. -/
def addUserToDepartment (st : Store) (cache : Cache)
    (did wid aid : Nat) (data : AddUserData) (caller : CallerInfo) :
    Except SvcError (Store × Cache × DepartmentUser) :=
  match findDepartment st did wid with
  | none => .error .departmentNotFound
  | some d =>
    match findWorkspace st d.workspaceId with
    | none => .error .relationMissing
    | some ws =>
      if ws.accountId ≠ aid then .error .departmentWrongAccount
      else if ¬ departmentWritePermission st caller did then
        .error .insufficientPermissions
      else
        match findUser st data.userId with
        | none => .error .userNotFound
        | some u =>
          match findWorkspaceUser st u.id wid with
          | none => .error .userNotInWorkspace
          | some _ =>
            if data.role ≠ "DEPARTMENT_MANAGER" ∧ data.role ≠ "HUMAN_SUPPORT" ∧
                data.role ≠ "MEMBER" then .error .invalidRole
            else
              match findDepartmentUser st u.id did with
              | some _ => .error .alreadyInDepartment
              | none =>
                let row : DepartmentUser :=
                  { userId := u.id, departmentId := did, role := data.role }
                let st' := { st with departmentUsers := st.departmentUsers ++ [row] }
                let cache' := cacheDel
                  (cacheDel cache ("department:" ++ toString did))
                  ("department_users:department:" ++ toString did)
                .ok (st', cache', row)

/-! ## Inbox service (`inbox.service.js`) -/

/-- The payload of an inbound message. -/
structure InboundData where
  fromEmail : String
  fromName : Option String
  subject : Option String
  body : String
  deriving DecidableEq, Repr

/-- The `switch (conversation.status)` of
`_normalizeConversationStateForInboundMessage`: `CLOSED` and `ASSIGNED`
target `TODO`; `ESCALATED`, `TODO` and any unknown status return without
a target. -/
def inboundTargetState : String → Option String
  | "CLOSED" => some "TODO"
  | "ASSIGNED" => some "TODO"
  | _ => none

/-- `_normalizeConversationStateForInboundMessage(conversation, workspaceId)`.
`convWorkspace` is the `workspace` relation of the JavaScript
`conversation` object: `createInboundMessage` loads the conversation with
no `include`, so it passes `none`, and evaluating
`conversation.workspace.accountId` inside the `try` block then throws a
`TypeError` that the `catch` absorbs.  A rejected `setConversationState`
is likewise absorbed (log and continue). -/
def normalizeConversationStateForInboundMessage (st : Store) (cache : Cache)
    (now : Nat) (conv : Conversation) (convWorkspace : Option Workspace)
    (workspaceId : Nat) : Store × Cache :=
  match inboundTargetState conv.status with
  | none => (st, cache)
  | some target =>
    match convWorkspace with
    | none => (st, cache)
    | some ws =>
      match setConversationState st cache now conv.id target
          (some workspaceId) (some ws.accountId) (fun _ => false) with
      | .ok (st', cache', _) => (st', cache')
      | .error _ => (st, cache)

/-- `createInboundMessage(workspaceId, data)`: verify the workspace, find or
create the contact and conversation, append the message with
`isInternal = false`, run inbound-state normalization, bump
`lastMessageAt` and delete the workspace/conversation list keys.
A conversation created here starts in status `TODO`
(modelled from the spec: the Prisma schema file with the column default is
not part of the repository snapshot; §3 gives `Todo` as the initial
state). -/
def createInboundMessage (st : Store) (cache : Cache) (now : Nat)
    (workspaceId : Nat) (data : InboundData) :
    Except SvcError (Store × Cache) :=
  match findWorkspace st workspaceId with
  | none => .error .workspaceNotFound
  | some _ =>
    let (contact, st1) :=
      match findContactByEmail st data.fromEmail with
      | some ct => (ct, st)
      | none =>
        let ct : Contact :=
          { id := st.nextId, email := data.fromEmail, name := data.fromName }
        (ct, { st with contacts := st.contacts ++ [ct], nextId := st.nextId + 1 })
    let (conv, st2) :=
      match findConversationByContact st1 workspaceId contact.id with
      | some c => (c, st1)
      | none =>
        let c : Conversation :=
          { id := st1.nextId, workspaceId := workspaceId,
            contactId := contact.id, subject := data.subject,
            status := "TODO", statusUpdatedAt := now,
            assignedUserId := none, assignedAt := none, lastMessageAt := now }
        (c,
          { st1 with
            conversations := st1.conversations ++ [c]
            nextId := st1.nextId + 1 })
    let msg : Message :=
      { id := st2.nextId, conversationId := conv.id,
        fromEmail := data.fromEmail, body := data.body, isInternal := false }
    let st3 :=
      { st2 with
        messages := st2.messages ++ [msg]
        nextId := st2.nextId + 1 }
    let (st4, cache1) :=
      normalizeConversationStateForInboundMessage st3 cache now conv none
        workspaceId
    let st5 := updateConversation st4 conv.id
      (fun x => { x with lastMessageAt := now })
    let cache2 := cacheDel
      (cacheDel cache1 ("conversations:workspace:" ++ toString workspaceId))
      ("conversation:" ++ toString conv.id)
    .ok (st5, cache2)

/-! ## Tenant middleware and role gate (`tenant.middleware.js`) -/

/-- The authenticated principal placed on `req.user` by the auth
middleware. -/
structure AuthUser where
  id : Nat
  isAppOwner : Bool
  deriving DecidableEq, Repr

/-- `req.tenant` as built by `tenantMiddleware`. -/
structure Tenant where
  accountId : Option Nat := none
  accountRole : Option String := none
  workspaceId : Option Nat := none
  workspaceRole : Option String := none
  deriving DecidableEq, Repr

/-- The failure responses of `tenantMiddleware` (HTTP status and message
collapsed to one constructor per distinct response site). -/
inductive MwError where
  /-- 401 `Authentication required` -/
  | authRequired
  /-- 403 `Account not found or does not belong to this AppOwner` -/
  | accountNotFoundForAppOwner
  /-- 403 `Access denied to this account` -/
  | accessDeniedAccount
  /-- 403 `Workspace not found or does not belong to this account` -/
  | workspaceNotFoundForAccount
  /-- 403 `Access denied to this workspace` -/
  | accessDeniedWorkspace
  /-- a missing foreign-key relation (unreachable on a well-formed store) -/
  | relationMissing
  deriving DecidableEq, Repr

/-- `prisma.account.findFirst({ where: { id, appOwnerId } })`. -/
def findAccountForOwner (st : Store) (aid ownerId : Nat) : Option Account :=
  st.accounts.find? (fun a => a.id == aid && a.appOwnerId == ownerId)

/-- `prisma.workspace.findFirst({ where: { id, accountId } })`. -/
def findWorkspaceInAccount (st : Store) (wid aid : Nat) : Option Workspace :=
  st.workspaces.find? (fun w => w.id == wid && w.accountId == aid)

/-- `tenantMiddleware(req, res, next)`: resolves the declared account and
workspace ids into `req.tenant`.  An `APP_OWNER` principal skips all
membership lookups and only has containment verified (account owned by
the principal, workspace belonging to that account) and is given `null`
roles; a regular principal must hold membership rows, and a declared
workspace whose authoritative `accountId` disagrees with the declared
account is rejected. -/
def tenantMiddleware (st : Store) (user : Option AuthUser)
    (accountId workspaceId : Option Nat) : Except MwError Tenant :=
  match user with
  | none => .error .authRequired
  | some u =>
    match accountId with
    | none => .ok {}
    | some aid =>
      if u.isAppOwner then
        match findAccountForOwner st aid u.id with
        | none => .error .accountNotFoundForAppOwner
        | some _ =>
          match workspaceId with
          | none => .ok { accountId := some aid, accountRole := none }
          | some wid =>
            match findWorkspaceInAccount st wid aid with
            | none => .error .workspaceNotFoundForAccount
            | some _ =>
              .ok { accountId := some aid, accountRole := none,
                    workspaceId := some wid, workspaceRole := none }
      else
        match findAccountUser st u.id aid with
        | none => .error .accessDeniedAccount
        | some au =>
          match workspaceId with
          | none => .ok { accountId := some aid, accountRole := some au.role }
          | some wid =>
            match findWorkspaceUser st u.id wid with
            | none => .error .accessDeniedWorkspace
            | some wu =>
              match findWorkspace st wu.workspaceId with
              | none => .error .relationMissing
              | some w =>
                if w.accountId ≠ aid then .error .accessDeniedWorkspace
                else
                  .ok { accountId := some aid, accountRole := some au.role,
                        workspaceId := some wid, workspaceRole := some wu.role }

/-- The outcome of the `requireRole(...roles)` guard. -/
inductive RoleOutcome where
  /-- `next()` was called -/
  | allowed
  /-- 401 `Authentication required` -/
  | unauthenticated
  /-- 403 `Insufficient permissions` -/
  | forbidden
  deriving DecidableEq, Repr

/-- `requireRole(...roles)`: APP_OWNER bypass for `APP_OWNER` /
`ACCOUNT_ADMIN` requirements, then the account-level checks, then the
workspace-level checks with the route-parameter fallback lookup. -/
def requireRole (st : Store) (roles : List String) (user : Option AuthUser)
    (tenant : Option Tenant) (paramsWorkspaceId : Option Nat) : RoleOutcome :=
  match user with
  | none => .unauthenticated
  | some u =>
    let tAccountId := tenant.bind Tenant.accountId
    let tAccountRole := tenant.bind Tenant.accountRole
    if u.isAppOwner ∧ ("APP_OWNER" ∈ roles ∨ "ACCOUNT_ADMIN" ∈ roles) then
      .allowed
    else if tAccountId.isSome ∧ tAccountRole = some "ADMIN" ∧
        "ACCOUNT_ADMIN" ∈ roles then .allowed
    else if tAccountId.isSome ∧ "ACCOUNT_MEMBER" ∈ roles then .allowed
    else
      let wsId0 := tenant.bind Tenant.workspaceId
      let wsRole0 := tenant.bind Tenant.workspaceRole
      let resolved : Option Nat × Option String :=
        if wsId0 = none ∧ ("WORKSPACE_ADMIN" ∈ roles ∨ "WORKSPACE_MEMBER" ∈ roles) then
          match paramsWorkspaceId, tAccountId with
          | some w, some a =>
            (some w,
              match findWorkspaceUser st u.id w with
              | some wu =>
                match findWorkspace st wu.workspaceId with
                | some wrec => if wrec.accountId = a then some wu.role else wsRole0
                | none => wsRole0
              | none => wsRole0)
          | pw, _ => (pw, wsRole0)
        else (wsId0, wsRole0)
      match resolved with
      | (some _, some r) =>
        if r = "ADMIN" ∧ "WORKSPACE_ADMIN" ∈ roles then .allowed
        else if "WORKSPACE_MEMBER" ∈ roles then .allowed
        else .forbidden
      | _ => .forbidden

/-! ## Concrete fixtures used by witnesses and counterexamples -/

/-- A small populated store: account 1 owned by app owner 10, account 2
owned by 11; workspace 3 under account 1, workspace 4 under account 2;
department 5 under workspace 3; users 20 (account/workspace admin),
21 (plain member), 22 (member); conversation 100 in workspace 3. -/
def demoStore : Store :=
  { accounts := [⟨1, 10⟩, ⟨2, 11⟩]
    workspaces := [⟨3, 1⟩, ⟨4, 2⟩]
    departments := [⟨5, 3⟩]
    users := [⟨10⟩, ⟨20⟩, ⟨21⟩, ⟨22⟩]
    accountUsers := [⟨20, 1, "ADMIN"⟩, ⟨21, 1, "MEMBER"⟩]
    workspaceUsers := [⟨20, 3, "ADMIN"⟩, ⟨21, 3, "MEMBER"⟩, ⟨22, 3, "MEMBER"⟩]
    departmentUsers := []
    contacts := [⟨50, "alice@example.com", none⟩]
    conversations := [⟨100, 3, 50, none, "TODO", 0, none, none, 0⟩]
    messages := []
    nextId := 1000 }

/-- `demoStore` with conversation 100 set to status `s`. -/
def demoStoreWith (s : String) : Store :=
  { demoStore with conversations := [⟨100, 3, 50, none, s, 0, none, none, 0⟩] }

/-- A fault schedule on which every Redis command succeeds. -/
def noFaults : Nat → Bool := fun _ => false

/-- C1's legal-target relation, written exactly as the claim enumerates it:
TODO→{ASSIGNED, ESCALATED}, ASSIGNED→{CLOSED}, ESCALATED→{ASSIGNED},
CLOSED→{TODO, ASSIGNED}. -/
def claimLegalTarget (s t : String) : Prop :=
  (s = "TODO" ∧ (t = "ASSIGNED" ∨ t = "ESCALATED")) ∨
  (s = "ASSIGNED" ∧ t = "CLOSED") ∨
  (s = "ESCALATED" ∧ t = "ASSIGNED") ∨
  (s = "CLOSED" ∧ (t = "TODO" ∨ t = "ASSIGNED"))

instance (s t : String) : Decidable (claimLegalTarget s t) := by
  unfold claimLegalTarget
  infer_instance

/-- Agreement of two conversation rows on every field other than
`assignedUserId` and `assignedAt`. -/
def AgreesExceptAssignment (c c' : Conversation) : Prop :=
  c'.id = c.id ∧ c'.workspaceId = c.workspaceId ∧
  c'.contactId = c.contactId ∧ c'.subject = c.subject ∧
  c'.status = c.status ∧ c'.statusUpdatedAt = c.statusUpdatedAt ∧
  c'.lastMessageAt = c.lastMessageAt

/-! ## General lemmas about the lookups and the state service -/

theorem findConversation_mem {st : Store} {cid : Nat} {wid : Option Nat}
    {c : Conversation} (h : findConversation st cid wid = some c) :
    c ∈ st.conversations :=
  List.mem_of_find?_eq_some h

theorem findConversation_id {st : Store} {cid : Nat} {wid : Option Nat}
    {c : Conversation} (h : findConversation st cid wid = some c) :
    c.id = cid := by
  have hp := List.find?_some h
  simp only [Bool.and_eq_true, beq_iff_eq] at hp
  exact hp.1

theorem findConversation_wid {st : Store} {cid w : Nat} {c : Conversation}
    (h : findConversation st cid (some w) = some c) :
    c.workspaceId = w := by
  have hp := List.find?_some h
  simp only [Bool.and_eq_true, beq_iff_eq] at hp
  exact hp.2

theorem verifyConversationChain_ok {st : Store} {cid wid aid : Nat}
    {ws : Workspace} {c : Conversation}
    (hfind : findConversation st cid (some wid) = some c)
    (hws : findWorkspace st c.workspaceId = some ws)
    (hacc : ws.accountId = aid) :
    verifyConversationChain st cid (some wid) (some aid) = .ok c := by
  unfold verifyConversationChain
  rw [hfind]
  have hw := findConversation_wid hfind
  rw [hw] at hws
  simp [hw, hws, hacc]

theorem updateConversation_mem {st : Store} {cid : Nat}
    {f : Conversation → Conversation} {c : Conversation}
    (hc : c ∈ st.conversations) (hid : c.id = cid) :
    f c ∈ (updateConversation st cid f).conversations := by
  unfold updateConversation
  have hfc : f c = (fun x => if x.id = cid then f x else x) c := by simp [hid]
  rw [hfc]
  exact List.mem_map_of_mem _ hc

theorem setConversationState_ok {st : Store} {cache : Cache}
    {now cid wid aid : Nat} {t : String} {ws : Workspace} {c : Conversation}
    {faults : Nat → Bool}
    (hfind : findConversation st cid (some wid) = some c)
    (hws : findWorkspace st c.workspaceId = some ws)
    (hacc : ws.accountId = aid)
    (ht : t ∈ validStates)
    (htr : isValidTransition c.status t = true) :
    setConversationState st cache now cid t (some wid) (some aid) faults =
      .ok (updateConversation st cid
             (fun x => { x with status := t, statusUpdatedAt := now }),
           invalidateConversationStateCache cache faults cid (some wid),
           { c with status := t, statusUpdatedAt := now }) := by
  unfold setConversationState
  rw [verifyConversationChain_ok hfind hws hacc]
  simp [ht, htr]

theorem setConversationState_illegal {st : Store} {cache : Cache}
    {now cid wid aid : Nat} {t : String} {ws : Workspace} {c : Conversation}
    {faults : Nat → Bool}
    (hfind : findConversation st cid (some wid) = some c)
    (hws : findWorkspace st c.workspaceId = some ws)
    (hacc : ws.accountId = aid)
    (ht : t ∈ validStates)
    (htr : isValidTransition c.status t = false) :
    setConversationState st cache now cid t (some wid) (some aid) faults =
      .error (.illegalTransition c.status t) := by
  unfold setConversationState
  rw [verifyConversationChain_ok hfind hws hacc]
  simp [ht, htr]

theorem setConversationState_invalidState {st : Store} {cache : Cache}
    {now cid : Nat} {t : String} {wid aid : Option Nat} {faults : Nat → Bool}
    (ht : t ∉ validStates) :
    setConversationState st cache now cid t wid aid faults =
      .error (.invalidState t) := by
  unfold setConversationState
  simp [ht]

/-- C1: for a conversation whose current status `s` is one of
{TODO, ASSIGNED, ESCALATED, CLOSED} and a target `t` in that set,
`setConversationState` succeeds and persists `status = t` iff `t` is in the
legal-target set of `s` (TODO→{ASSIGNED, ESCALATED}, ASSIGNED→{CLOSED},
ESCALATED→{ASSIGNED}, CLOSED→{TODO, ASSIGNED}); every other (s, t) pair
fails with the illegal-transition error, and a target outside the four
values fails with the invalid-state error. -/
theorem setConversationState_transition_spec
    (st : Store) (cache : Cache) (now cid wid aid : Nat)
    (faults : Nat → Bool) (c : Conversation) (ws : Workspace) (s t : String)
    (hfind : findConversation st cid (some wid) = some c)
    (hws : findWorkspace st c.workspaceId = some ws)
    (hacc : ws.accountId = aid)
    (hs : c.status = s)
    (hsv : s ∈ validStates) :
    (t ∈ validStates →
      ((∃ st' cache' c',
          setConversationState st cache now cid t (some wid) (some aid) faults
            = .ok (st', cache', c') ∧ c'.status = t ∧ c' ∈ st'.conversations)
        ↔ claimLegalTarget s t))
    ∧ (t ∉ validStates →
        setConversationState st cache now cid t (some wid) (some aid) faults
          = .error (.invalidState t))
    ∧ (t ∈ validStates → ¬ claimLegalTarget s t →
        setConversationState st cache now cid t (some wid) (some aid) faults
          = .error (.illegalTransition s t)) := by
  subst hs
  refine ⟨?_, ?_, ?_⟩
  · intro htv
    simp only [validStates, List.mem_cons, List.not_mem_nil, or_false] at htv hsv
    rcases hsv with hsv | hsv | hsv | hsv <;> rw [hsv] <;>
      rcases htv with rfl | rfl | rfl | rfl <;>
      first
      | (rw [setConversationState_ok hfind hws hacc (by decide)
            (by rw [hsv]; decide)]
         exact iff_of_true
           ⟨_, _, _, rfl, rfl,
            updateConversation_mem (findConversation_mem hfind)
              (findConversation_id hfind)⟩ (by decide))
      | (rw [setConversationState_illegal hfind hws hacc (by decide)
            (by rw [hsv]; decide)]
         rw [hsv]
         exact iff_of_false
           (by rintro ⟨st', cache', c', heq, -, -⟩; exact Except.noConfusion heq)
           (by decide))
  · intro htv
    exact setConversationState_invalidState htv
  · intro htv hnl
    simp only [validStates, List.mem_cons, List.not_mem_nil, or_false] at htv hsv
    rcases hsv with hsv | hsv | hsv | hsv <;> rw [hsv] <;>
      rcases htv with rfl | rfl | rfl | rfl <;>
      first
      | (exact absurd (by rw [hsv]; decide) hnl)
      | (rw [setConversationState_illegal hfind hws hacc (by decide)
            (by rw [hsv]; decide), hsv])

/-- Witness for C1: in the demo store, conversation 100 in status TODO
transitions to ASSIGNED and the new status is persisted. -/
theorem setConversationState_transition_spec_witness :
    ∃ st' cache' c',
      setConversationState (demoStoreWith "TODO") [] 5 100 "ASSIGNED"
          (some 3) (some 1) noFaults
        = .ok (st', cache', c') ∧ c'.status = "ASSIGNED" ∧
        c' ∈ st'.conversations :=
  ((setConversationState_transition_spec (demoStoreWith "TODO") [] 5 100 3 1
      noFaults ⟨100, 3, 50, none, "TODO", 0, none, none, 0⟩ ⟨3, 1⟩
      "TODO" "ASSIGNED" (by decide) (by decide) (by decide) (by decide)
      (by decide)).1 (by decide)).mpr (by decide)

/-- C2 (the code evaluated at the failing inputs): appending an inbound
message via `createInboundMessage` to conversation 100 while its status is
CLOSED (resp. ASSIGNED) succeeds but leaves the persisted status CLOSED
(resp. ASSIGNED) instead of the TODO that the normalization mapping and the
function's own doc comment promise.  The conversation object is loaded with
no `include`, so `conversation.workspace.accountId` throws a `TypeError`
inside the normalization helper's `try` block and the `catch` absorbs it;
independently, ASSIGNED→TODO is not in `VALID_TRANSITIONS`, so even a
well-formed call through the `setState` gate is rejected and swallowed. -/
theorem createInboundMessage_no_normalization :
    ((createInboundMessage (demoStoreWith "CLOSED") [] 7 3
        ⟨"alice@example.com", none, none, "hi"⟩).map
      (fun r => (findConversation r.1 100 none).map Conversation.status) =
      .ok (some "CLOSED"))
    ∧ ((createInboundMessage (demoStoreWith "ASSIGNED") [] 7 3
        ⟨"alice@example.com", none, none, "hi"⟩).map
      (fun r => (findConversation r.1 100 none).map Conversation.status) =
      .ok (some "ASSIGNED")) := by decide

/-! ## C8: assignment operations only touch the assignment fields -/

theorem forall₂_updateConversation (st : Store) (cid : Nat)
    (g : Conversation → Conversation)
    (hg : ∀ c, AgreesExceptAssignment c (g c)) :
    List.Forall₂ AgreesExceptAssignment st.conversations
      ((updateConversation st cid g).conversations) := by
  unfold updateConversation
  induction st.conversations with
  | nil => exact .nil
  | cons a l ih =>
    refine .cons ?_ ih
    by_cases h : a.id = cid
    · simp only [h, if_pos rfl]
      exact hg a
    · simp only [if_neg h]
      exact ⟨rfl, rfl, rfl, rfl, rfl, rfl, rfl⟩

/-- C8: `assignConversationToUser` and `unassignConversation` modify only
the `assignedUserId` and `assignedAt` fields: every conversation row in the
resulting store agrees with the corresponding original row on `status`,
`statusUpdatedAt` and every other field, whatever the current status. -/
theorem assignment_preserves_status
    (st : Store) (cache : Cache) (now cid uid wid aid : Nat)
    (faults : Nat → Bool) :
    (∀ st' cache' c',
      assignConversationToUser st cache now cid uid wid aid faults
        = .ok (st', cache', c') →
      List.Forall₂ AgreesExceptAssignment st.conversations st'.conversations)
    ∧ (∀ st' cache' c',
      unassignConversation st cache cid wid aid faults = .ok (st', cache', c') →
      List.Forall₂ AgreesExceptAssignment st.conversations st'.conversations) := by
  constructor
  · intro st' cache' c' h
    unfold assignConversationToUser at h
    cases hv : verifyConversationChain st cid (some wid) (some aid) with
    | error e => rw [hv] at h; exact Except.noConfusion h
    | ok c =>
      rw [hv] at h
      cases hu : verifyUserInWorkspace st uid wid with
      | error e => rw [hu] at h; exact Except.noConfusion h
      | ok u =>
        rw [hu] at h
        cases hf : findUser st uid with
        | none => rw [hf] at h; exact Except.noConfusion h
        | some x =>
          rw [hf] at h
          simp only [Except.ok.injEq, Prod.mk.injEq] at h
          obtain ⟨h1, -, -⟩ := h
          rw [← h1]
          exact forall₂_updateConversation st cid _
            (fun c => ⟨rfl, rfl, rfl, rfl, rfl, rfl, rfl⟩)
  · intro st' cache' c' h
    unfold unassignConversation at h
    cases hv : verifyConversationChain st cid (some wid) (some aid) with
    | error e => rw [hv] at h; exact Except.noConfusion h
    | ok c =>
      rw [hv] at h
      simp only [Except.ok.injEq, Prod.mk.injEq] at h
      obtain ⟨h1, -, -⟩ := h
      rw [← h1]
      exact forall₂_updateConversation st cid _
        (fun c => ⟨rfl, rfl, rfl, rfl, rfl, rfl, rfl⟩)

/-- Witness for C8: a concrete successful assignment in the demo store whose
frame property is obtained from `assignment_preserves_status`. -/
theorem assignment_preserves_status_witness :
    List.Forall₂ AgreesExceptAssignment
      (demoStoreWith "TODO").conversations
      [⟨100, 3, 50, none, "TODO", 0, some 22, some 9, 0⟩] :=
  (assignment_preserves_status (demoStoreWith "TODO") [] 9 100 22 3 1
      noFaults).1
    (updateConversation (demoStoreWith "TODO") 100
      (fun x => { x with assignedUserId := some 22, assignedAt := some 9 }))
    (invalidateConversationCache [] noFaults 100 3)
    ⟨100, 3, 50, none, "TODO", 0, some 22, some 9, 0⟩ (by decide)

/-! ## C9: uniform not-found error hides cross-tenant existence -/

/-- C9: with a declared workspace id, `_verifyConversationChain` (shared
verbatim by the state and assignment services) produces the same
`Conversation not found` failure whether the conversation id does not exist
at all or the conversation exists in a different workspace — the
workspace-id filter is part of the lookup query, so both runs are
indistinguishable to the caller; moreover the distinct
`Conversation does not belong to this workspace` branch is dead: no input
whatsoever can produce that error. -/
theorem verifyConversationChain_uniform_not_found (st : Store) :
    (∀ (cid w : Nat) (aid : Option Nat),
      (∀ c ∈ st.conversations, ¬(c.id = cid ∧ c.workspaceId = w)) →
      verifyConversationChain st cid (some w) aid =
        .error .conversationNotFound)
    ∧ (∀ (cid : Nat) (wid aid : Option Nat),
        verifyConversationChain st cid wid aid ≠
          .error .conversationWrongWorkspace) := by
  constructor
  · intro cid w aid hnone
    have hfind : findConversation st cid (some w) = none := by
      unfold findConversation
      rw [List.find?_eq_none]
      intro c hc
      simp only [Bool.and_eq_true, beq_iff_eq, not_and]
      intro h1 h2
      exact hnone c hc ⟨h1, h2⟩
    unfold verifyConversationChain
    rw [hfind]
  · intro cid wid aid h
    unfold verifyConversationChain at h
    cases hf : findConversation st cid wid with
    | none => simp [hf] at h
    | some c =>
      rw [hf] at h
      cases wid with
      | none =>
        cases aid with
        | none => simp at h
        | some a =>
          cases hw : findWorkspace st c.workspaceId with
          | none => simp [hw] at h
          | some ws =>
            by_cases hacc : ws.accountId = a <;> simp [hw, hacc] at h
      | some w' =>
        have hww := findConversation_wid hf
        cases aid with
        | none => simp [hww] at h
        | some a =>
          cases hw : findWorkspace st w' with
          | none => simp [hww, hw] at h
          | some ws =>
            by_cases hacc : ws.accountId = a <;> simp [hww, hw, hacc] at h

/-- Witness for C9: in the demo store, querying conversation 100 (which
lives in workspace 3) with declared workspace 4, and querying a
nonexistent conversation 999 with the same declared workspace, both
produce exactly the `Conversation not found` error. -/
theorem verifyConversationChain_uniform_not_found_witness :
    verifyConversationChain demoStore 100 (some 4) none =
      .error .conversationNotFound
    ∧ verifyConversationChain demoStore 999 (some 4) none =
      .error .conversationNotFound :=
  ⟨(verifyConversationChain_uniform_not_found demoStore).1 100 4 none
      (by decide),
   (verifyConversationChain_uniform_not_found demoStore).1 999 4 none
      (by decide)⟩

/-! ## C3: admin elevation for department-scoped writes -/

theorem departmentWritePermission_admin (st : Store) (caller : CallerInfo)
    (did : Nat)
    (h : caller.accountRole = some "ADMIN" ∨
         caller.workspaceRole = some "ADMIN") :
    departmentWritePermission st caller did = true := by
  unfold departmentWritePermission
  rcases h with h | h
  · simp [h]
  · by_cases h2 : caller.accountRole == some "ADMIN" <;> simp [h2, h]

theorem departmentWritePermission_member (st : Store) (caller : CallerInfo)
    (did : Nat)
    (h1 : caller.accountRole ≠ some "ADMIN")
    (h2 : caller.workspaceRole = some "MEMBER")
    (h3 : findDepartmentUser st caller.userId did = none) :
    departmentWritePermission st caller did = false := by
  unfold departmentWritePermission
  simp [h1, h2, h3]

/-- C3: for `addUserToDepartment` (a department-scoped write requiring
DEPARTMENT_MANAGER), a caller whose `workspaceRole` (or `accountRole`) is
ADMIN passes the permission check with zero department membership rows —
the operation never fails with the insufficient-permissions error — while a
caller with only `workspaceRole = MEMBER` and zero department membership
rows is denied with exactly that error. -/
theorem addUserToDepartment_elevation_rule
    (st : Store) (cache : Cache) (did wid aid : Nat) (data : AddUserData)
    (d : Department) (ws : Workspace)
    (hd : findDepartment st did wid = some d)
    (hws : findWorkspace st d.workspaceId = some ws)
    (hacc : ws.accountId = aid) :
    (∀ caller : CallerInfo,
      (caller.accountRole = some "ADMIN" ∨
       caller.workspaceRole = some "ADMIN") →
      addUserToDepartment st cache did wid aid data caller ≠
        .error .insufficientPermissions)
    ∧ (∀ caller : CallerInfo,
      caller.accountRole ≠ some "ADMIN" →
      caller.workspaceRole = some "MEMBER" →
      (∀ du ∈ st.departmentUsers, du.userId ≠ caller.userId) →
      addUserToDepartment st cache did wid aid data caller =
        .error .insufficientPermissions) := by
  constructor
  · intro caller hadmin h
    have hperm := departmentWritePermission_admin st caller did hadmin
    unfold addUserToDepartment at h
    rw [hd] at h
    simp only [hws, hacc] at h
    rw [if_neg (by simp)] at h
    rw [if_neg (by simp [hperm])] at h
    cases hu : findUser st data.userId with
    | none => simp [hu] at h
    | some u =>
      simp only [hu] at h
      cases hwu : findWorkspaceUser st u.id wid with
      | none => simp [hwu] at h
      | some wu =>
        simp only [hwu] at h
        by_cases hrole : data.role ≠ "DEPARTMENT_MANAGER" ∧
            data.role ≠ "HUMAN_SUPPORT" ∧ data.role ≠ "MEMBER"
        · simp [hrole] at h
        · rw [if_neg hrole] at h
          cases hex : findDepartmentUser st u.id did with
          | some du => simp [hex] at h
          | none => simp [hex] at h
  · intro caller h1 h2 h3
    have hnone : findDepartmentUser st caller.userId did = none := by
      unfold findDepartmentUser
      rw [List.find?_eq_none]
      intro du hdu
      simp only [Bool.and_eq_true, beq_iff_eq, not_and]
      intro hid
      exact absurd hid (h3 du hdu)
    have hperm := departmentWritePermission_member st caller did h1 h2 hnone
    unfold addUserToDepartment
    rw [hd]
    simp only [hws, hacc]
    rw [if_neg (by simp)]
    rw [if_pos (by simp [hperm])]

/-- Witness for C3: in the demo store, user 20 (workspace admin of
workspace 3, no department memberships) may add user 22 to department 5,
while user 21 (plain workspace member, no department memberships) is
denied. -/
theorem addUserToDepartment_elevation_rule_witness :
    (addUserToDepartment demoStore [] 5 3 1 ⟨22, "MEMBER"⟩
        ⟨20, none, some "ADMIN"⟩ ≠ .error .insufficientPermissions)
    ∧ addUserToDepartment demoStore [] 5 3 1 ⟨22, "MEMBER"⟩
        ⟨21, none, some "MEMBER"⟩ = .error .insufficientPermissions :=
  ⟨(addUserToDepartment_elevation_rule demoStore [] 5 3 1 ⟨22, "MEMBER"⟩
      ⟨5, 3⟩ ⟨3, 1⟩ (by decide) (by decide) (by decide)).1
      ⟨20, none, some "ADMIN"⟩ (Or.inr (by decide)),
   (addUserToDepartment_elevation_rule demoStore [] 5 3 1 ⟨22, "MEMBER"⟩
      ⟨5, 3⟩ ⟨3, 1⟩ (by decide) (by decide) (by decide)).2
      ⟨21, none, some "MEMBER"⟩ (by decide) (by decide) (by decide)⟩

/-! ## C10: ACCOUNT_MEMBER checks never consult the account role -/

/-- C10: in `requireRole`, a required-role set containing
`ACCOUNT_MEMBER` is satisfied whenever the tenant context has an
`accountId` resolved, whatever the value of `accountRole` (in particular a
platform owner's `null` role passes); and the `accountRole` value is
consulted only for `ACCOUNT_ADMIN` requirements: when `ACCOUNT_ADMIN` is
not in the required set, the outcome is unchanged under any change of
`accountRole`. -/
theorem requireRole_account_member_ignores_role
    (st : Store) (roles : List String) (u : AuthUser) (tenant : Tenant)
    (pws : Option Nat) :
    ((tenant.accountId).isSome = true → "ACCOUNT_MEMBER" ∈ roles →
      requireRole st roles (some u) (some tenant) pws = .allowed)
    ∧ (∀ r : Option String, "ACCOUNT_ADMIN" ∉ roles →
        requireRole st roles (some u) (some { tenant with accountRole := r })
          pws =
        requireRole st roles (some u) (some tenant) pws) := by
  constructor
  · intro hacc hmem
    unfold requireRole
    simp only [Option.bind_eq_bind, Option.some_bind]
    split_ifs with h1 h2 h3 <;>
      first
      | rfl
      | exact absurd ⟨hacc, hmem⟩ h3
  · intro r hadm
    unfold requireRole
    simp only [Option.bind_eq_bind, Option.some_bind]
    have hfalse : ∀ ar : Option String,
        ¬((tenant.accountId).isSome = true ∧ ar = some "ADMIN" ∧
          "ACCOUNT_ADMIN" ∈ roles) := by
      intro ar h
      exact hadm h.2.2
    rw [if_neg (hfalse _), if_neg (hfalse _)]

/-- Witness for C10: a platform owner with resolved account 1 and `null`
account role passes an `ACCOUNT_MEMBER`-level check, and removing the role
value does not change the outcome of a non-admin check. -/
theorem requireRole_account_member_ignores_role_witness :
    requireRole demoStore ["ACCOUNT_MEMBER"] (some ⟨10, true⟩)
      (some { accountId := some 1, accountRole := none }) none = .allowed
    ∧ requireRole demoStore ["ACCOUNT_MEMBER"] (some ⟨21, false⟩)
        (some { accountId := some 1, accountRole := some "MEMBER",
                workspaceId := none, workspaceRole := none }) none =
      requireRole demoStore ["ACCOUNT_MEMBER"] (some ⟨21, false⟩)
        (some { accountId := some 1, accountRole := none,
                workspaceId := none, workspaceRole := none }) none :=
  ⟨(requireRole_account_member_ignores_role demoStore ["ACCOUNT_MEMBER"]
      ⟨10, true⟩ { accountId := some 1, accountRole := none } none).1
      (by decide) (by decide),
   (requireRole_account_member_ignores_role demoStore ["ACCOUNT_MEMBER"]
      ⟨21, false⟩
      { accountId := some 1, accountRole := none, workspaceId := none,
        workspaceRole := none } none).2 (some "MEMBER") (by decide)⟩

/-! ## C5: a declared account/workspace mismatch is always a denial -/

theorem findWorkspaceUser_wid {st : Store} {uid wid : Nat}
    {wu : WorkspaceUser} (h : findWorkspaceUser st uid wid = some wu) :
    wu.workspaceId = wid := by
  have hp := List.find?_some h
  simp only [Bool.and_eq_true, beq_iff_eq] at hp
  exact hp.2

/-- The fully applied form of `tenantMiddleware` for an authenticated user
with both ids declared (pure match reduction). -/
theorem tenantMiddleware_unfolded (st : Store) (u : AuthUser)
    (aid wid : Nat) :
    tenantMiddleware st (some u) (some aid) (some wid) =
      if u.isAppOwner = true then
        match findAccountForOwner st aid u.id with
        | none => .error .accountNotFoundForAppOwner
        | some _ =>
          match findWorkspaceInAccount st wid aid with
          | none => .error .workspaceNotFoundForAccount
          | some _ =>
            .ok { accountId := some aid, accountRole := none,
                  workspaceId := some wid, workspaceRole := none }
      else
        match findAccountUser st u.id aid with
        | none => .error .accessDeniedAccount
        | some au =>
          match findWorkspaceUser st u.id wid with
          | none => .error .accessDeniedWorkspace
          | some wu =>
            match findWorkspace st wu.workspaceId with
            | none => .error .relationMissing
            | some w =>
              if w.accountId ≠ aid then .error .accessDeniedWorkspace
              else
                .ok { accountId := some aid, accountRole := some au.role,
                      workspaceId := some wid, workspaceRole := some wu.role }
    := rfl

/-- C5: when a principal declares workspace `W` together with account
`A` but `W`'s authoritative `accountId` (read from the workspace record)
differs from `A`, `tenantMiddleware` always responds with a denial and
never returns a resolved context — in particular it never silently
substitutes `W`'s true account.  When the account stage succeeded, the
error is precisely the workspace-level denial of the matching branch. -/
theorem tenantMiddleware_scope_mismatch
    (st : Store) (u : AuthUser) (aid wid : Nat) (w : Workspace)
    (hw : findWorkspace st wid = some w)
    (hmm : w.accountId ≠ aid)
    (huniq : ∀ w' ∈ st.workspaces, w'.id = wid →
      w'.accountId = w.accountId) :
    (∃ e, tenantMiddleware st (some u) (some aid) (some wid) = .error e)
    ∧ (u.isAppOwner = true →
        ∀ a, findAccountForOwner st aid u.id = some a →
        tenantMiddleware st (some u) (some aid) (some wid) =
          .error .workspaceNotFoundForAccount)
    ∧ (u.isAppOwner = false →
        ∀ au, findAccountUser st u.id aid = some au →
        tenantMiddleware st (some u) (some aid) (some wid) =
          .error .accessDeniedWorkspace) := by
  have hwsacct : findWorkspaceInAccount st wid aid = none := by
    unfold findWorkspaceInAccount
    rw [List.find?_eq_none]
    intro w' hw'
    simp only [Bool.and_eq_true, beq_iff_eq, not_and]
    intro hid hacc
    exact hmm (huniq w' hw' hid ▸ hacc)
  refine ⟨?_, ?_, ?_⟩
  · rw [tenantMiddleware_unfolded]
    by_cases hown : u.isAppOwner = true
    · rw [if_pos hown]
      cases hacct : findAccountForOwner st aid u.id with
      | none => exact ⟨_, rfl⟩
      | some a => rw [hwsacct]; exact ⟨_, rfl⟩
    · rw [if_neg hown]
      cases hau : findAccountUser st u.id aid with
      | none => exact ⟨_, rfl⟩
      | some au =>
        cases hwu : findWorkspaceUser st u.id wid with
        | none => exact ⟨_, rfl⟩
        | some wu =>
          refine ⟨.accessDeniedWorkspace, ?_⟩
          simp [findWorkspaceUser_wid hwu, hw, hmm]
  · intro hown a hacct
    rw [tenantMiddleware_unfolded, if_pos hown, hacct, hwsacct]
  · intro hown au hau
    rw [tenantMiddleware_unfolded, if_neg (by rw [hown]; simp), hau]
    cases hwu : findWorkspaceUser st u.id wid with
    | none => rfl
    | some wu =>
      simp [findWorkspaceUser_wid hwu, hw, hmm]

/-- Witness for C5: in the demo store, workspace 4 belongs to account 2,
so declaring it with account 1 is denied, both for app owner 10 and for
the regular member 21. -/
theorem tenantMiddleware_scope_mismatch_witness :
    (∃ e, tenantMiddleware demoStore (some ⟨10, true⟩) (some 1) (some 4) =
      .error e)
    ∧ tenantMiddleware demoStore (some ⟨10, true⟩) (some 1) (some 4) =
        .error .workspaceNotFoundForAccount :=
  ⟨(tenantMiddleware_scope_mismatch demoStore ⟨10, true⟩ 1 4 ⟨4, 2⟩
      (by decide) (by decide) (by decide)).1,
   (tenantMiddleware_scope_mismatch demoStore ⟨10, true⟩ 1 4 ⟨4, 2⟩
      (by decide) (by decide) (by decide)).2.1 (by decide) ⟨1, 10⟩
      (by decide)⟩

/-! ## C4: app-owner resolution carries null roles, not Admin roles -/

/-- C4 counterexample: app owner 10, owner of account 1 and holding no
membership rows, resolves account 1 / workspace 3 into a `TenantContext`
whose `accountRole` and `workspaceRole` are `null` — not Admin-level
values; and that context is then denied by a `WORKSPACE_ADMIN`-only
`requireRole` check, so it does not behave as an admin context at every
resolved level either. -/
theorem tenantMiddleware_app_owner_null_roles :
    tenantMiddleware demoStore (some ⟨10, true⟩) (some 1) (some 3) =
      .ok { accountId := some 1, accountRole := none,
            workspaceId := some 3, workspaceRole := none }
    ∧ ({ accountId := some 1, accountRole := none, workspaceId := some 3,
         workspaceRole := none : Tenant }).accountRole ≠ some "ADMIN"
    ∧ requireRole demoStore ["WORKSPACE_ADMIN"] (some ⟨10, true⟩)
        (some { accountId := some 1, accountRole := none,
                workspaceId := some 3, workspaceRole := none }) none =
      .forbidden := by decide

/-- C4 amended: an AppOwner principal with no membership rows resolves a
declared account it owns (and a workspace contained in it) into a
`TenantContext` with the ids resolved and `null` roles at every level; the
membership tables are never consulted (the result depends only on the
account and workspace tables); admin-level power is granted not by the
context but by `requireRole`'s APP_OWNER bypass for
APP_OWNER/ACCOUNT_ADMIN requirements; and resolving a declared account it
does not own fails with the account-not-found denial. -/
theorem tenantMiddleware_app_owner_resolution
    (st : Store) (u : AuthUser) (aid : Nat) (hown : u.isAppOwner = true) :
    (∀ a, findAccountForOwner st aid u.id = some a →
      tenantMiddleware st (some u) (some aid) none =
        .ok { accountId := some aid, accountRole := none })
    ∧ (∀ a w wid, findAccountForOwner st aid u.id = some a →
        findWorkspaceInAccount st wid aid = some w →
        tenantMiddleware st (some u) (some aid) (some wid) =
          .ok { accountId := some aid, accountRole := none,
                workspaceId := some wid, workspaceRole := none })
    ∧ (findAccountForOwner st aid u.id = none →
        ∀ wid, tenantMiddleware st (some u) (some aid) wid =
          .error .accountNotFoundForAppOwner)
    ∧ (∀ st2 : Store, st2.accounts = st.accounts →
        st2.workspaces = st.workspaces →
        ∀ wid, tenantMiddleware st2 (some u) (some aid) wid =
          tenantMiddleware st (some u) (some aid) wid)
    ∧ (∀ (roles : List String) (tenant : Option Tenant) (pws : Option Nat),
        "ACCOUNT_ADMIN" ∈ roles →
        requireRole st roles (some u) tenant pws = .allowed) := by
  refine ⟨?_, ?_, ?_, ?_, ?_⟩
  · intro a ha
    simp [tenantMiddleware, hown, ha]
  · intro a w wid ha hw
    simp [tenantMiddleware, hown, ha, hw]
  · intro h wid
    rcases wid with - | w2 <;> simp [tenantMiddleware, hown, h]
  · intro st2 h1 h2 wid
    have e1 : findAccountForOwner st2 aid u.id =
        findAccountForOwner st aid u.id := by
      unfold findAccountForOwner; rw [h1]
    have e2 : ∀ w2, findWorkspaceInAccount st2 w2 aid =
        findWorkspaceInAccount st w2 aid := by
      intro w2; unfold findWorkspaceInAccount; rw [h2]
    rcases wid with - | w2 <;> simp [tenantMiddleware, hown, e1, e2]
  · intro roles tenant pws hmem
    simp [requireRole, hown, hmem]

/-- Witness for C4 (amended): app owner 10 resolves owned account 1 with
null roles, is denied for foreign account 2, and passes an
`ACCOUNT_ADMIN`-level check. -/
theorem tenantMiddleware_app_owner_resolution_witness :
    tenantMiddleware demoStore (some ⟨10, true⟩) (some 1) none =
      .ok { accountId := some 1, accountRole := none }
    ∧ tenantMiddleware demoStore (some ⟨10, true⟩) (some 2) none =
      .error .accountNotFoundForAppOwner
    ∧ requireRole demoStore ["ACCOUNT_ADMIN"] (some ⟨10, true⟩) none none =
      .allowed :=
  ⟨(tenantMiddleware_app_owner_resolution demoStore ⟨10, true⟩ 1
      (by decide)).1 ⟨1, 10⟩ (by decide),
   (tenantMiddleware_app_owner_resolution demoStore ⟨10, true⟩ 2
      (by decide)).2.2.1 (by decide) none,
   (tenantMiddleware_app_owner_resolution demoStore ⟨10, true⟩ 1
      (by decide)).2.2.2.2 ["ACCOUNT_ADMIN"] none none (by decide)⟩

/-! ## C6: which cache failures are absorbed -/

/-- C6 counterexample: a failing `redis.get` makes `getConversationState`
itself fail with a Redis error, while the identical call with a healthy
cache succeeds.  The `redis.get`/`redis.setex` calls of the read path are
not wrapped in `try/catch`, so their failures are not absorbed,
contradicting the claim that no cache failure ever fails the surrounding
operation. -/
theorem getConversationState_redis_failure :
    getConversationState (demoStoreWith "TODO") [] 5 100 (some 3) (some 1)
      true false = .error .redisError
    ∧ (getConversationState (demoStoreWith "TODO") [] 5 100 (some 3) (some 1)
        false false).isOk = true := by decide

/-- C6 amended: a cache-delete failure inside the `try/catch`-guarded
invalidation helpers that the mutation operations execute
(`_invalidateConversationStateCache` in `setConversationState`,
`_invalidateConversationCache` in `assignConversationToUser` and
`unassignConversation`) is absorbed: the store-and-value outcome of the
operation is identical under every fault schedule, exactly as if the
deletes had succeeded.  But the unguarded `redis.get` and `redis.setex` of
the read path propagate: whenever the chain verifies, a get failure fails
`getConversationState` with a Redis error, and so does a setex failure on
a cache miss. -/
theorem cache_failure_absorption_and_propagation
    (st : Store) (cache : Cache) (now cid : Nat) (t : String)
    (wid aid : Option Nat) (uid wN aN : Nat) :
    (∀ f g : Nat → Bool,
      (setConversationState st cache now cid t wid aid f).map
          (fun r => (r.1, r.2.2)) =
        (setConversationState st cache now cid t wid aid g).map
          (fun r => (r.1, r.2.2)))
    ∧ (∀ f g : Nat → Bool,
      (assignConversationToUser st cache now cid uid wN aN f).map
          (fun r => (r.1, r.2.2)) =
        (assignConversationToUser st cache now cid uid wN aN g).map
          (fun r => (r.1, r.2.2)))
    ∧ (∀ f g : Nat → Bool,
      (unassignConversation st cache cid wN aN f).map
          (fun r => (r.1, r.2.2)) =
        (unassignConversation st cache cid wN aN g).map
          (fun r => (r.1, r.2.2)))
    ∧ (∀ c, verifyConversationChain st cid wid aid = .ok c →
        getConversationState st cache now cid wid aid true false =
          .error .redisError)
    ∧ (∀ c c2, verifyConversationChain st cid wid aid = .ok c →
        cacheGet cache now ("conversation_state:" ++ toString cid) = none →
        findConversation st cid none = some c2 →
        getConversationState st cache now cid wid aid false true =
          .error .redisError) := by
  refine ⟨?_, ?_, ?_, ?_, ?_⟩
  · intro f g
    unfold setConversationState
    split_ifs with h1
    · cases hv : verifyConversationChain st cid wid aid with
      | error e => rfl
      | ok c =>
        by_cases htr : isValidTransition c.status t = true <;>
          simp [htr, Except.map]
    · rfl
  · intro f g
    unfold assignConversationToUser
    cases hv : verifyConversationChain st cid (some wN) (some aN) with
    | error e => rfl
    | ok c =>
      cases hu : verifyUserInWorkspace st uid wN with
      | error e => rfl
      | ok x =>
        cases hfu : findUser st uid with
        | none => rfl
        | some u => simp [Except.map]
  · intro f g
    unfold unassignConversation
    cases hv : verifyConversationChain st cid (some wN) (some aN) with
    | error e => rfl
    | ok c => simp [Except.map]
  · intro c hv
    simp [getConversationState, hv]
  · intro c c2 hv hmiss hc2
    simp [getConversationState, hv, hmiss, hc2]

/-- Witness for C6 (amended): in the demo store, a legal transition and an
assignment compute the same business result whether every delete fails or
none does; a get failure fails the state read, and so does a setex
failure on the cold-cache miss. -/
theorem cache_failure_absorption_and_propagation_witness :
    ((setConversationState (demoStoreWith "TODO") [] 5 100 "ASSIGNED"
        (some 3) (some 1) (fun _ => true)).map (fun r => (r.1, r.2.2)) =
      (setConversationState (demoStoreWith "TODO") [] 5 100 "ASSIGNED"
        (some 3) (some 1) noFaults).map (fun r => (r.1, r.2.2)))
    ∧ ((assignConversationToUser (demoStoreWith "TODO") [] 9 100 22 3 1
        (fun _ => true)).map (fun r => (r.1, r.2.2)) =
      (assignConversationToUser (demoStoreWith "TODO") [] 9 100 22 3 1
        noFaults).map (fun r => (r.1, r.2.2)))
    ∧ ((unassignConversation (demoStoreWith "TODO") [] 100 3 1
        (fun _ => true)).map (fun r => (r.1, r.2.2)) =
      (unassignConversation (demoStoreWith "TODO") [] 100 3 1
        noFaults).map (fun r => (r.1, r.2.2)))
    ∧ getConversationState (demoStoreWith "TODO") [] 5 100 (some 3) (some 1)
        true false = .error .redisError
    ∧ getConversationState (demoStoreWith "TODO") [] 5 100 (some 3) (some 1)
        false true = .error .redisError :=
  ⟨(cache_failure_absorption_and_propagation (demoStoreWith "TODO") [] 5 100
      "ASSIGNED" (some 3) (some 1) 22 3 1).1 (fun _ => true) noFaults,
   (cache_failure_absorption_and_propagation (demoStoreWith "TODO") [] 9 100
      "ASSIGNED" (some 3) (some 1) 22 3 1).2.1 (fun _ => true) noFaults,
   (cache_failure_absorption_and_propagation (demoStoreWith "TODO") [] 5 100
      "ASSIGNED" (some 3) (some 1) 22 3 1).2.2.1 (fun _ => true) noFaults,
   (cache_failure_absorption_and_propagation (demoStoreWith "TODO") [] 5 100
      "ASSIGNED" (some 3) (some 1) 22 3 1).2.2.2.1
      ⟨100, 3, 50, none, "TODO", 0, none, none, 0⟩ (by decide),
   (cache_failure_absorption_and_propagation (demoStoreWith "TODO") [] 5 100
      "ASSIGNED" (some 3) (some 1) 22 3 1).2.2.2.2
      ⟨100, 3, 50, none, "TODO", 0, none, none, 0⟩
      ⟨100, 3, 50, none, "TODO", 0, none, none, 0⟩
      (by decide) (by decide) (by decide)⟩

/-! ## C7: what a department-membership write actually invalidates -/

/-- C7 counterexample: immediately after the department-membership write
(user 22 added as manager of department 5 at time 10), the enumerated
aggregate key `department_managers:5` is still readable with its pre-write
(stale) value — the membership write deletes only `department:{id}` and
`department_users:department:{id}`; `invalidateDepartmentCache`, which
would delete the aggregate keys, has no caller in the repository. -/
theorem addUserToDepartment_aggregate_key_not_deleted :
    (addUserToDepartment demoStore
        [⟨"department_managers:5", .userList [], 310⟩] 5 3 1
        ⟨22, "DEPARTMENT_MANAGER"⟩ ⟨20, some "ADMIN", none⟩).map
      (fun r => cacheGet r.2.1 10 "department_managers:5") =
    .ok (some (.userList [])) := by decide

theorem findUser_id {st : Store} {uid : Nat} {u : User}
    (h : findUser st uid = some u) : u.id = uid := by
  have hp := List.find?_some h
  simpa only [beq_iff_eq] using hp

theorem verifyDepartmentChain_ok {st : Store} {did wid aid : Nat}
    {d : Department} {ws : Workspace}
    (hd : findDepartment st did wid = some d)
    (hws : findWorkspace st d.workspaceId = some ws)
    (hacc : ws.accountId = aid) :
    verifyDepartmentChain st did (some wid) (some aid) = .ok d := by
  unfold verifyDepartmentChain
  have h2 : st.departments.find?
      (fun x => x.id == did &&
        (match (some wid : Option Nat) with
         | some w => x.workspaceId == w
         | none => true)) = some d := hd
  rw [h2]
  simp [hws, hacc]

theorem cacheGet_expired {cache : Cache} {t : Nat} {k : String}
    (h : ∀ e ∈ cache, e.key = k → e.expiresAt ≤ t) :
    cacheGet cache t k = none := by
  unfold cacheGet
  cases hf : cache.find? (fun e => e.key == k) with
  | none => rfl
  | some e =>
    have hm := List.mem_of_find?_eq_some hf
    have hp := List.find?_some hf
    simp only [beq_iff_eq] at hp
    have hle := h e hm hp
    show (if t < e.expiresAt then some e.val else none) = none
    rw [if_neg (by omega)]

/-- C7 amended: a department-membership write
(`addUserToDepartment`) deletes exactly the keys `department:{id}` and
`department_users:department:{id}`: every other cache entry — including
the aggregate `department_managers:{id}`/`department_human_support:{id}`
keys and the per-subject keys — survives the write; consequently such a
key may serve its pre-write value only within its 300-second TTL window,
and every `isDepartmentManager` read at least 5 minutes after a write at
time `tw` (all candidate entries having been cached before the write with
TTL 300) reflects the new membership row. -/
theorem addUserToDepartment_cache_staleness
    (st : Store) (cache : Cache) (did wid aid : Nat) (data : AddUserData)
    (caller : CallerInfo) (st' : Store) (cache' : Cache)
    (row : DepartmentUser) (tw tRead : Nat)
    (hok : addUserToDepartment st cache did wid aid data caller =
      .ok (st', cache', row)) :
    (cache' = cacheDel (cacheDel cache ("department:" ++ toString did))
        ("department_users:department:" ++ toString did))
    ∧ (∀ e ∈ cache, e.key ≠ "department:" ++ toString did →
        e.key ≠ "department_users:department:" ++ toString did →
        e ∈ cache')
    ∧ ((∀ e ∈ cache,
          e.key = "is_dept_manager:" ++ toString data.userId ++ ":" ++
            toString did →
          e.expiresAt ≤ tw + 300) →
        tw + 300 ≤ tRead →
        ∃ cache3,
          isDepartmentManager st' cache' tRead data.userId did
              (some wid) (some aid) =
            .ok (data.role == "DEPARTMENT_MANAGER", cache3)) := by
  unfold addUserToDepartment at hok
  cases hd : findDepartment st did wid with
  | none => rw [hd] at hok; exact absurd hok (by simp)
  | some d =>
  simp only [hd] at hok
  cases hws : findWorkspace st d.workspaceId with
  | none => rw [hws] at hok; exact absurd hok (by simp)
  | some ws =>
  simp only [hws] at hok
  by_cases hacc : ws.accountId ≠ aid
  · rw [if_pos hacc] at hok; exact absurd hok (by simp)
  · rw [if_neg hacc] at hok
    by_cases hperm : departmentWritePermission st caller did = true
    case neg => rw [if_pos (by simp [hperm])] at hok; exact absurd hok (by simp)
    case pos =>
    rw [if_neg (by simp [hperm])] at hok
    cases hu : findUser st data.userId with
    | none => rw [hu] at hok; exact absurd hok (by simp)
    | some u =>
    simp only [hu] at hok
    cases hwu : findWorkspaceUser st u.id wid with
    | none => rw [hwu] at hok; exact absurd hok (by simp)
    | some wu =>
    simp only [hwu] at hok
    by_cases hrole : data.role ≠ "DEPARTMENT_MANAGER" ∧
        data.role ≠ "HUMAN_SUPPORT" ∧ data.role ≠ "MEMBER"
    · rw [if_pos hrole] at hok; exact absurd hok (by simp)
    · rw [if_neg hrole] at hok
      cases hex : findDepartmentUser st u.id did with
      | some du => rw [hex] at hok; exact absurd hok (by simp)
      | none =>
      simp only [hex, Except.ok.injEq, Prod.mk.injEq] at hok
      obtain ⟨hst, hcache, hrow⟩ := hok
      subst hst
      subst hcache
      subst hrow
      have huid := findUser_id hu
      refine ⟨rfl, ?_, ?_⟩
      · intro e he h1 h2
        simp only [cacheDel, List.mem_filter, decide_eq_true_eq]
        exact ⟨⟨he, h1⟩, h2⟩
      · intro hstale htR
        have hd2 : findDepartment
            { st with departmentUsers :=
                st.departmentUsers ++ [⟨u.id, did, data.role⟩] }
            did wid = some d := hd
        have hws2 : findWorkspace
            { st with departmentUsers :=
                st.departmentUsers ++ [⟨u.id, did, data.role⟩] }
            d.workspaceId = some ws := hws
        have hchain : verifyDepartmentChain
            { st with departmentUsers :=
                st.departmentUsers ++ [⟨u.id, did, data.role⟩] }
            did (some wid) (some aid) = .ok d :=
          verifyDepartmentChain_ok hd2 hws2 (not_not.mp hacc)
        unfold isDepartmentManager
        simp only [hchain]
        have hmiss : cacheGet
            (cacheDel (cacheDel cache ("department:" ++ toString did))
              ("department_users:department:" ++ toString did)) tRead
            ("is_dept_manager:" ++ toString data.userId ++ ":" ++
              toString did) = none := by
          apply cacheGet_expired
          intro e he hk
          have hec : e ∈ cache := by
            simp only [cacheDel, List.mem_filter] at he
            exact he.1.1
          exact le_trans (hstale e hec hk) htR
        simp only [hmiss]
        have hfindnew : findDepartmentUser
            { st with departmentUsers :=
                st.departmentUsers ++ [⟨u.id, did, data.role⟩] }
            data.userId did = some ⟨u.id, did, data.role⟩ := by
          show List.find?
              (fun m => m.userId == data.userId && m.departmentId == did)
              (st.departmentUsers ++ [⟨u.id, did, data.role⟩]) =
            some ⟨u.id, did, data.role⟩
          rw [List.find?_append]
          have hold : st.departmentUsers.find?
              (fun m => m.userId == data.userId && m.departmentId == did) =
              none := by
            rw [← huid]
            exact hex
          rw [hold]
          simp [huid]
        simp only [hfindnew]
        exact ⟨_, rfl⟩

/-- Witness for C7 (amended): user 22 is added as manager of department 5
at time 10 while a stale per-subject entry (`false`, expiring at 310) is
cached; a read at time 310 reports the new manager role. -/
theorem addUserToDepartment_cache_staleness_witness :
    ∃ cache3,
      isDepartmentManager
        { demoStore with departmentUsers := [⟨22, 5, "DEPARTMENT_MANAGER"⟩] }
        (cacheDel (cacheDel [⟨"is_dept_manager:22:5", .s "false", 310⟩]
          ("department:" ++ toString 5))
          ("department_users:department:" ++ toString 5))
        310 22 5 (some 3) (some 1) =
      .ok (("DEPARTMENT_MANAGER" == "DEPARTMENT_MANAGER"), cache3) :=
  (addUserToDepartment_cache_staleness demoStore
      [⟨"is_dept_manager:22:5", .s "false", 310⟩] 5 3 1
      ⟨22, "DEPARTMENT_MANAGER"⟩ ⟨20, some "ADMIN", none⟩
      { demoStore with departmentUsers := [⟨22, 5, "DEPARTMENT_MANAGER"⟩] }
      (cacheDel (cacheDel [⟨"is_dept_manager:22:5", .s "false", 310⟩]
        ("department:" ++ toString 5))
        ("department_users:department:" ++ toString 5))
      ⟨22, 5, "DEPARTMENT_MANAGER"⟩ 10 310 (by decide)).2.2
    (by decide) (by decide)














end Lucidis
